import Mathlib

/-!
Verification of the appointment-availability and billing-derivation core of
the Hospital-Management repository, shallowly embedded in Lean 4.

Conventions of the embedding:
  * JS money numbers become `Int` (the claims involve only exact sums,
    differences and comparisons; the source performs no rounding).
  * Calendar dates become `Nat` days since the Unix epoch (1970-01-01 was a
    Thursday); times of day become `Nat` minutes since midnight. The source
    stores times as "HH:MM" strings and compares them by parsing both sides
    into Date objects, so exact string equality on canonical "HH:MM" values
    coincides with equality of minute counts.
  * The mongoose stores become explicit values: a bill is a record, the
    appointment store is a `List`, and each Express handler becomes a pure
    function from its inputs (authenticated user, looked-up documents, the
    request body, the current clock reading) to a typed verdict.
-/

namespace HospitalMgmt

/-! ### Billing data model (src/server/models/Patient.js, billingSchema) -/

/-- Bill status enum of billingSchema. The source spells the second value
"partial"; that word is a Lean keyword, so the constructor is named
`partPaid` here. -/
inductive BillStatus where
  | pending
  | partPaid
  | paid
  | overdue
  | cancelled
deriving DecidableEq, Repr

/-- One entry of billingSchema.items: description, quantity, unitPrice and
the stored per-line total. -/
structure BillItem where
  description : String
  quantity : Int
  unitPrice : Int
  total : Int
deriving DecidableEq, Repr

/-- The bill document fields the claims touch. `dueDate` and `paymentDate`
are clock readings in the same units as `now` below. -/
structure Bill where
  items : List BillItem
  subtotal : Int
  tax : Int
  discount : Int
  totalAmount : Int
  paidAmount : Int
  balance : Int
  dueDate : Nat
  status : BillStatus
  paymentDate : Option Nat
deriving DecidableEq, Repr

/-- billingSchema.pre("save") (Patient.js lines 221-241): recomputes
subtotal as the fold of the stored per-item totals, then totalAmount and
balance, then the status cascade. There is no clamping of totalAmount, no
final else branch, and no special case for a cancelled bill: when no branch
fires the stored status is kept. `now` is the reading of `new Date()`. -/
def billingPreSave (now : Nat) (b : Bill) : Bill :=
  let subtotal := b.items.foldl (fun sum item => sum + item.total) 0
  let totalAmount := subtotal + b.tax - b.discount
  let balance := totalAmount - b.paidAmount
  let status :=
    if balance ≤ 0 then BillStatus.paid
    else if b.paidAmount > 0 then BillStatus.partPaid
    else if now > b.dueDate then BillStatus.overdue
    else b.status
  { b with subtotal := subtotal, totalAmount := totalAmount,
           balance := balance, status := status }

/-- One item of the POST /api/billing request body. -/
structure BillingItemBody where
  description : String
  quantity : Int
  unitPrice : Int
deriving DecidableEq, Repr

/-- The POST /api/billing request body fields the claims touch. The route
spreads req.body into the created document, so paidAmount and status pass
through when supplied (their schema defaults are 0 and pending). -/
structure BillingCreateBody where
  items : List BillingItemBody
  tax : Int
  discount : Int
  paidAmount : Int
  dueDate : Nat
  status : BillStatus
deriving DecidableEq, Repr

inductive BillingPostResult where
  | badRequest
  | patientNotFound
  | created (bill : Bill)
deriving DecidableEq, Repr

/-- POST /api/billing (billing routes, lines 112-175): express-validator
checks (at least one item, quantity ≥ 1, unitPrice ≥ 0, tax ≥ 0,
discount ≥ 0), then the patient lookup, then each item total is computed as
quantity × unitPrice and Billing.create persists the document, which runs
the pre-save middleware. -/
def billingPostRoute (now : Nat) (patientExists : Bool) (body : BillingCreateBody) :
    BillingPostResult :=
  if body.items.isEmpty
      || body.items.any (fun item => item.quantity < 1 || item.unitPrice < 0)
      || body.tax < 0 || body.discount < 0 || body.paidAmount < 0 then
    .badRequest
  else if !patientExists then
    .patientNotFound
  else
    let calculatedItems := body.items.map fun item =>
      { description := item.description, quantity := item.quantity,
        unitPrice := item.unitPrice, total := item.quantity * item.unitPrice }
    let bill : Bill :=
      { items := calculatedItems, subtotal := 0, tax := body.tax,
        discount := body.discount, totalAmount := 0, paidAmount := body.paidAmount,
        balance := 0, dueDate := body.dueDate, status := body.status,
        paymentDate := none }
    .created (billingPreSave now bill)

/-- The PUT /api/billing/:id request body fields the claims touch. -/
structure BillingUpdateBody where
  status : Option BillStatus
  paidAmount : Option Int
deriving DecidableEq, Repr

inductive BillingPutResult where
  | badRequest
  | notFound
  | updated (bill : Bill)
deriving DecidableEq, Repr

/-- PUT /api/billing/:id (billing routes, lines 180-228): validates the
optional fields, sets paymentDate when a positive paidAmount is supplied,
and applies the update with findByIdAndUpdate. findByIdAndUpdate issues a
query-level update: the document pre-save middleware does NOT run, so no
derived field is recomputed here. -/
def billingPutRoute (now : Nat) (body : BillingUpdateBody) (stored : Option Bill) :
    BillingPutResult :=
  if (match body.paidAmount with | some p => decide (p < 0) | none => false) then
    .badRequest
  else
    match stored with
    | none => .notFound
    | some b =>
      let paymentDate :=
        match body.paidAmount with
        | some p => if p > 0 then some now else b.paymentDate
        | none => b.paymentDate
      .updated { b with
        status := body.status.getD b.status,
        paidAmount := body.paidAmount.getD b.paidAmount,
        paymentDate := paymentDate }

/-! ### Appointment data model (src/server/models/Patient.js, appointmentSchema) -/

inductive ApptStatus where
  | scheduled
  | confirmed
  | in_progress
  | completed
  | cancelled
  | no_show
deriving DecidableEq, Repr

/-- The appointment document fields the claims touch. `date` is epoch days
and `time` minutes since midnight; `id` stands for the Mongo _id. -/
structure Appt where
  id : Nat
  patientId : String
  doctorId : String
  date : Nat
  time : Nat
  status : ApptStatus
deriving DecidableEq, Repr

/-- The conflict query of POST /api/appointments and POST
/api/appointments/patient (appointments.js lines 302-307 and 388-393):
findOne on the exact (doctorId, appointmentDate, appointmentTime) tuple with
status $nin [cancelled, completed]. Note no_show and in_progress both block
here. -/
def conflictNin (store : List Appt) (doctorId : String) (date time : Nat) : Bool :=
  store.any fun a =>
    decide (a.doctorId = doctorId ∧ a.date = date ∧ a.time = time ∧
      a.status ≠ ApptStatus.cancelled ∧ a.status ≠ ApptStatus.completed)

/-- The conflict query of POST /api/appointments/check-availability
(appointments.js lines 226-231): findOne on the exact tuple with status
$in [scheduled, confirmed]. Note in_progress does NOT block here. -/
def conflictIn (store : List Appt) (doctorId : String) (date time : Nat) : Bool :=
  store.any fun a =>
    decide (a.doctorId = doctorId ∧ a.date = date ∧ a.time = time ∧
      (a.status = ApptStatus.scheduled ∨ a.status = ApptStatus.confirmed))

/-- Blocking-status set as claim C7 words it: scheduled, confirmed or
in_progress. Written from the claim, for comparison against the two
conflict queries of the source. -/
def claimBlockingSet (s : ApptStatus) : Bool :=
  decide (s = ApptStatus.scheduled ∨ s = ApptStatus.confirmed ∨ s = ApptStatus.in_progress)

/-- checkConflict as claim C7 words it: exact tuple match among
`claimBlockingSet` statuses. Written from the claim, for comparison. -/
def claimCheckConflict (store : List Appt) (doctorId : String) (date time : Nat) : Bool :=
  store.any fun a =>
    decide (a.doctorId = doctorId ∧ a.date = date ∧ a.time = time) && claimBlockingSet a.status

/-! ### Doctor availability (src/unnamed/part_005 doctorSchema, client and
server lookups) -/

/-- One weekday entry of doctorSchema.availability. -/
structure DayAvailability where
  startMin : Nat
  endMin : Nat
  available : Bool
deriving DecidableEq, Repr

/-- doctorSchema.availability: an object keyed by weekday name. Modelled as
an association list so that an absent or misspelled key yields a failed
lookup, as an absent property does in JS. -/
abbrev WeeklyAvailability := List (String × DayAvailability)

inductive DoctorStatus where
  | active
  | inactive
  | on_leave
deriving DecidableEq, Repr

/-- The doctor document fields the appointment routes consult. -/
structure DoctorRec where
  status : DoctorStatus
  availability : WeeklyAvailability
deriving DecidableEq, Repr

/-- The weekday-name computation of the client (BookAppointment.jsx line
103): toLocaleDateString with en-US and weekday long, lowercased. With the
locale fixed to en-US this yields exactly the seven schema keys; it is
modelled by day-of-week arithmetic on epoch days (1970-01-01, day 0, was a
Thursday). -/
def weekdayLongLower (date : Nat) : String :=
  match (date + 4) % 7 with
  | 0 => "sunday"
  | 1 => "monday"
  | 2 => "tuesday"
  | 3 => "wednesday"
  | 4 => "thursday"
  | 5 => "friday"
  | _ => "saturday"

/-- The weekday-name computation of the server (appointments.js line 203):
toLocaleDateString with en-US and the weekday option set to "lowercase".
"lowercase" is not a legal value of the weekday option (only "narrow",
"short" and "long" are), so ECMA-402 option validation throws a RangeError
before any formatting happens, for every date. -/
def weekdayLowercaseOption (_date : Nat) : Except String String :=
  Except.error "RangeError: weekday value out of range"

/-- The day-availability guard of the client (BookAppointment.jsx lines
103-105): look the weekday entry up; an absent entry or available false
means not available. Total, never throws. -/
def isDayAvailableClient (availability : WeeklyAvailability) (date : Nat) : Bool :=
  match availability.lookup (weekdayLongLower date) with
  | none => false
  | some day => day.available

/-- The day-availability lookup of the server (appointments.js lines
202-211), which computes the weekday with the invalid "lowercase" option:
it propagates that RangeError for every date, and its ok branch (dead code)
would return the available flag with false for an absent key. -/
def isDayAvailableServer (availability : WeeklyAvailability) (date : Nat) :
    Except String Bool :=
  match weekdayLowercaseOption date with
  | .error e => .error e
  | .ok day =>
    .ok (match availability.lookup day with
         | none => false
         | some d => d.available)

/-- The slot-generation loop of the client (BookAppointment.jsx lines
106-117): starting at the day start, step 30 minutes (the increment is
hard-coded), collect every start strictly before the day end. -/
def slotsLoop (cur endMin : Nat) : List Nat :=
  if cur < endMin then cur :: slotsLoop (cur + 30) endMin else []
termination_by endMin - cur
decreasing_by omega

/-- getAvailableTimeSlots (BookAppointment.jsx lines 101-118), minus the
12-hour display formatting: empty when the weekday entry is absent or not
available, otherwise the 30-minute grid of the half-open working window. -/
def getAvailableTimeSlots (availability : WeeklyAvailability) (date : Nat) : List Nat :=
  match availability.lookup (weekdayLongLower date) with
  | none => []
  | some day => if !day.available then [] else slotsLoop day.startMin day.endMin

/-- Slot bookability: the day guard combined with the working-hours
comparison of the server (appointments.js line 218), which rejects exactly
when time < start or time ≥ end — the half-open window. -/
def isSlotBookable (availability : WeeklyAvailability) (date time : Nat) : Bool :=
  match availability.lookup (weekdayLongLower date) with
  | none => false
  | some day =>
    if !day.available then false
    else !(time < day.startMin || time ≥ day.endMin)

/-! ### Appointment routes (src/server/routes/appointments.js) -/

inductive AvailVerdict where
  | doctorUnavailable
  | pastDateTime
  | dayUnavailable
  | outsideWorkingHours
  | slotConflict
  | serverError
  | available
deriving DecidableEq, Repr

/-- POST /api/appointments/check-availability (appointments.js lines
173-258), after the missing-field 400 guard: doctor existence and active
status, then the strict-future check on the combined date+time (date in
epoch days, time in minutes, now in minutes since the epoch), then the
weekday computation — which throws for every date, landing in the catch
block as a 500 — then the (dead) day, hours and conflict checks that the
source lines spell out. -/
def checkAvailabilityRoute (now : Nat) (doctor : Option DoctorRec)
    (store : List Appt) (doctorId : String) (date time : Nat) : AvailVerdict :=
  match doctor with
  | none => .doctorUnavailable
  | some doc =>
    if doc.status ≠ DoctorStatus.active then .doctorUnavailable
    else if ¬ (date * 1440 + time > now) then .pastDateTime
    else
      match weekdayLowercaseOption date with
      | .error _ => .serverError
      | .ok dayOfWeek =>
        match doc.availability.lookup dayOfWeek with
        | none => .dayUnavailable
        | some day =>
          if !day.available then .dayUnavailable
          else if time < day.startMin || time ≥ day.endMin then .outsideWorkingHours
          else if conflictIn store doctorId date time then .slotConflict
          else .available

/-- The POST /api/appointments/patient request body fields the claims
touch. patientId and status model rogue fields a request body may carry;
the route overrides both. -/
structure PatientBookBody where
  doctorId : String
  date : Nat
  time : Nat
  reason : String
  patientId : Option String
  status : Option ApptStatus
deriving DecidableEq, Repr

/-- The appointment document POST /api/appointments/patient builds
(appointments.js lines 317-323): req.body spread first, then patientId is
overridden with the authenticated user id and status with scheduled, so
the rogue body fields never reach the document. -/
def buildPatientAppointment (userId : String) (freshId : Nat) (body : PatientBookBody) : Appt :=
  { id := freshId, patientId := userId, doctorId := body.doctorId,
    date := body.date, time := body.time, status := ApptStatus.scheduled }

inductive PatientCreateResult where
  | badRequest
  | forbidden
  | doctorNotFound
  | slotConflict
  | created (store : List Appt) (appt : Appt)
deriving DecidableEq, Repr

/-- POST /api/appointments/patient (appointments.js lines 263-344):
validator errors, the patient-role guard, doctor existence and active
status, the $nin conflict query, then Appointment.create on the built
document. There is no past-date check and no working-hours check on this
route. -/
def createPatientRoute (isPatientRole : Bool) (userId : String)
    (doctor : Option DoctorRec) (store : List Appt) (body : PatientBookBody)
    (freshId : Nat) : PatientCreateResult :=
  if body.reason = "" then .badRequest
  else if !isPatientRole then .forbidden
  else
    match doctor with
    | none => .doctorNotFound
    | some doc =>
      if doc.status ≠ DoctorStatus.active then .doctorNotFound
      else if conflictNin store body.doctorId body.date body.time then .slotConflict
      else
        let appt := buildPatientAppointment userId freshId body
        .created (store ++ [appt]) appt

inductive StaffCreateResult where
  | patientNotFound
  | doctorNotFound
  | slotConflict
  | created (store : List Appt)
deriving DecidableEq, Repr

/-- POST /api/appointments (appointments.js lines 349-420): patient and
doctor existence (no active-status check), the $nin conflict query, then
Appointment.create(req.body) — the body, including any status it carries,
becomes the document. -/
def createStaffRoute (patientExists doctorExists : Bool) (store : List Appt)
    (body : Appt) : StaffCreateResult :=
  if !patientExists then .patientNotFound
  else if !doctorExists then .doctorNotFound
  else if conflictNin store body.doctorId body.date body.time then .slotConflict
  else .created (store ++ [body])

/-- The PUT /api/appointments/:id request body fields the claims touch. -/
structure ApptUpdateBody where
  patientId : Option String
  doctorId : Option String
  date : Option Nat
  time : Option Nat
  status : Option ApptStatus
deriving DecidableEq, Repr

def applyApptUpdate (u : ApptUpdateBody) (a : Appt) : Appt :=
  { a with
    patientId := u.patientId.getD a.patientId,
    doctorId := u.doctorId.getD a.doctorId,
    date := u.date.getD a.date,
    time := u.time.getD a.time,
    status := u.status.getD a.status }

/-- PUT /api/appointments/:id (appointments.js lines 425-463):
findByIdAndUpdate applies the body to the matched document. No conflict
query, no uniqueness re-check of any kind runs here. -/
def updateApptRoute (store : List Appt) (id : Nat) (u : ApptUpdateBody) :
    Option (List Appt) :=
  if store.any (fun a => a.id == id) then
    some (store.map fun a => if a.id = id then applyApptUpdate u a else a)
  else none

inductive CancelResult where
  | notFound
  | cannotCancel
  | done (store : List Appt)
deriving DecidableEq, Repr

/-- PUT /api/appointments/:id/cancel (appointments.js lines 495-543), after
the ownership guard: refuses a completed or already cancelled appointment,
otherwise sets status to cancelled and saves. -/
def cancelApptRoute (store : List Appt) (id : Nat) : CancelResult :=
  match store.find? (fun a => a.id == id) with
  | none => .notFound
  | some a =>
    if a.status = ApptStatus.completed ∨ a.status = ApptStatus.cancelled then .cannotCancel
    else .done (store.map fun x =>
      if x.id = id then { x with status := ApptStatus.cancelled } else x)

/-- DELETE /api/appointments/:id (appointments.js lines 468-490). -/
def deleteApptRoute (store : List Appt) (id : Nat) : Option (List Appt) :=
  if store.any (fun a => a.id == id) then
    some (store.filter fun a => a.id != id)
  else none

/-- An appointment that still blocks a slot: status neither cancelled nor
completed (the glossary notion of a non-terminal status). -/
def nonTerminal (a : Appt) : Bool :=
  decide (a.status ≠ ApptStatus.cancelled ∧ a.status ≠ ApptStatus.completed)

/-- The slot identity of an appointment. -/
def apptKey (a : Appt) : String × Nat × Nat := (a.doctorId, a.date, a.time)

/-- The C5 uniqueness invariant: no two non-terminal appointments of the
store share a (doctorId, date, time) tuple. -/
def uniqueNonTerminal (store : List Appt) : Prop :=
  (store.filter nonTerminal).Pairwise fun a b => apptKey a ≠ apptKey b

instance (store : List Appt) : Decidable (uniqueNonTerminal store) :=
  List.instDecidablePairwise (store.filter nonTerminal)

/-! ### Concrete instances the claim theorems evaluate the embedding on -/

/-- A bill whose discount exceeds subtotal plus tax: the recompute of the
source leaves its total negative. -/
def c1CexBill : Bill :=
  { items := [{ description := "dressing", quantity := 1, unitPrice := 5, total := 5 }],
    subtotal := 0, tax := 0, discount := 10, totalAmount := 0, paidAmount := 0,
    balance := 0, dueDate := 100, status := BillStatus.pending, paymentDate := none }

def c1WitBill : Bill :=
  { items := [{ description := "consultation", quantity := 2, unitPrice := 50, total := 100 }],
    subtotal := 0, tax := 10, discount := 0, totalAmount := 0, paidAmount := 0,
    balance := 0, dueDate := 100, status := BillStatus.pending, paymentDate := none }

/-- An unpaid bill stored with status overdue although its due date is in
the future (reachable: POST /api/billing spreads a body status into the
document). -/
def c2CexBill : Bill :=
  { items := [{ description := "dressing", quantity := 1, unitPrice := 5, total := 5 }],
    subtotal := 0, tax := 0, discount := 0, totalAmount := 0, paidAmount := 0,
    balance := 0, dueDate := 100, status := BillStatus.overdue, paymentDate := none }

def c3WitBill : Bill :=
  { items := [{ description := "dressing", quantity := 1, unitPrice := 5, total := 5 }],
    subtotal := 0, tax := 0, discount := 0, totalAmount := 0, paidAmount := 0,
    balance := 0, dueDate := 100, status := BillStatus.cancelled, paymentDate := none }

/-- A cancelled bill whose payments cover its total. -/
def c3CexBill : Bill :=
  { items := [{ description := "dressing", quantity := 1, unitPrice := 5, total := 5 }],
    subtotal := 0, tax := 0, discount := 0, totalAmount := 0, paidAmount := 5,
    balance := 0, dueDate := 100, status := BillStatus.cancelled, paymentDate := none }

def c4Body : BillingCreateBody :=
  { items := [{ description := "consultation", quantity := 2, unitPrice := 50 }],
    tax := 10, discount := 0, paidAmount := 0, dueDate := 100000,
    status := BillStatus.pending }

/-- The bill POST /api/billing creates from c4Body at time 0. -/
def c4Bill : Bill :=
  { items := [{ description := "consultation", quantity := 2, unitPrice := 50, total := 100 }],
    subtotal := 100, tax := 10, discount := 0, totalAmount := 110, paidAmount := 0,
    balance := 110, dueDate := 100000, status := BillStatus.pending, paymentDate := none }

/-- The stored document after PUT /api/billing/:id records a payment of
110 at time 1: paidAmount moved, every derived field left as it was. -/
def c4After : Bill :=
  { items := [{ description := "consultation", quantity := 2, unitPrice := 50, total := 100 }],
    subtotal := 100, tax := 10, discount := 0, totalAmount := 110, paidAmount := 110,
    balance := 110, dueDate := 100000, status := BillStatus.pending, paymentDate := some 1 }

def c5A1 : Appt :=
  { id := 1, patientId := "p1", doctorId := "d1", date := 4, time := 540,
    status := ApptStatus.scheduled }

def c5A2 : Appt :=
  { id := 2, patientId := "p2", doctorId := "d1", date := 4, time := 570,
    status := ApptStatus.scheduled }

def c5Update : ApptUpdateBody :=
  { patientId := none, doctorId := none, date := none, time := some 540, status := none }

def c5A2Moved : Appt :=
  { id := 2, patientId := "p2", doctorId := "d1", date := 4, time := 540,
    status := ApptStatus.scheduled }

def c5WitAppt : Appt :=
  { id := 7, patientId := "p7", doctorId := "d7", date := 11, time := 600,
    status := ApptStatus.scheduled }

def c6Doctor : DoctorRec :=
  { status := DoctorStatus.active,
    availability := [("monday", { startMin := 540, endMin := 1020, available := true })] }

def c7Doctor : DoctorRec :=
  { status := DoctorStatus.active,
    availability := [("monday", { startMin := 540, endMin := 1020, available := true })] }

def c7Scheduled : Appt :=
  { id := 1, patientId := "p1", doctorId := "d1", date := 4, time := 540,
    status := ApptStatus.scheduled }

def c7Cancelled : Appt :=
  { id := 1, patientId := "p1", doctorId := "d1", date := 4, time := 540,
    status := ApptStatus.cancelled }

def c7Body : PatientBookBody :=
  { doctorId := "d1", date := 4, time := 540, reason := "checkup",
    patientId := none, status := none }

def c7Booked : Appt :=
  { id := 2, patientId := "p2", doctorId := "d1", date := 4, time := 540,
    status := ApptStatus.scheduled }

def c7NoShow : Appt :=
  { id := 3, patientId := "p3", doctorId := "d1", date := 4, time := 540,
    status := ApptStatus.no_show }

def c7InProgress : Appt :=
  { id := 4, patientId := "p4", doctorId := "d1", date := 4, time := 540,
    status := ApptStatus.in_progress }

/-- The weekly availability of the spec example: monday 09:00 to 17:00,
in minutes 540 to 1020. Day 4 since the epoch (1970-01-05) is a Monday. -/
def c8MondayAvail : WeeklyAvailability :=
  [("monday", { startMin := 540, endMin := 1020, available := true })]

def c9Avail : WeeklyAvailability :=
  [("monday", { startMin := 540, endMin := 1020, available := true })]

def c10Doctor : DoctorRec := { status := DoctorStatus.active, availability := [] }

/-- A self-booking body carrying rogue patientId and status fields. -/
def c10Body1 : PatientBookBody :=
  { doctorId := "d1", date := 4, time := 540, reason := "checkup",
    patientId := some "someOtherPatient", status := some ApptStatus.completed }

/-- The same booking body without the rogue fields. -/
def c10Body2 : PatientBookBody :=
  { doctorId := "d1", date := 4, time := 540, reason := "checkup",
    patientId := none, status := none }

/-! ### Helper lemmas -/

theorem foldl_add_total (l : List BillItem) (c : Int) :
    l.foldl (fun sum item => sum + item.total) c = c + (l.map fun item => item.total).sum := by
  induction l generalizing c with
  | nil => simp
  | cons hd tl ih => simp [ih, add_assoc]

/-- The status cascade of the pre-save hook, read off the recomputed
balance: paid, else partPaid, else overdue, else the stored status. -/
theorem billingPreSave_status (now : Nat) (b : Bill) :
    (billingPreSave now b).status =
      if (billingPreSave now b).balance ≤ 0 then BillStatus.paid
      else if b.paidAmount > 0 then BillStatus.partPaid
      else if now > b.dueDate then BillStatus.overdue
      else b.status := rfl

/-! ### Claim theorems -/

/-- C1, counterexample: on a bill whose discount exceeds subtotal plus tax
the pre-save recompute leaves totalAmount negative, not clamped at 0 as
the claim states. -/
theorem C1_counterexample :
    (billingPreSave 0 c1CexBill).subtotal = 5 ∧
    (billingPreSave 0 c1CexBill).totalAmount = -5 ∧
    (billingPreSave 0 c1CexBill).totalAmount ≠
      max 0 ((billingPreSave 0 c1CexBill).subtotal + c1CexBill.tax - c1CexBill.discount) := by
  decide

/-- C1, amended: the pre-save recompute sets subtotal to the sum over items
of quantity × unitPrice (for items whose stored total is quantity ×
unitPrice, as POST /api/billing computes them), totalAmount to
subtotal + tax − discount with no clamping, and balance to
totalAmount − paidAmount. -/
theorem C1_recompute_amended (now : Nat) (b : Bill)
    (h : ∀ item ∈ b.items, item.total = item.quantity * item.unitPrice) :
    (billingPreSave now b).subtotal =
        (b.items.map fun item => item.quantity * item.unitPrice).sum ∧
    (billingPreSave now b).totalAmount = (billingPreSave now b).subtotal + b.tax - b.discount ∧
    (billingPreSave now b).balance = (billingPreSave now b).totalAmount - b.paidAmount := by
  refine ⟨?_, rfl, rfl⟩
  show b.items.foldl (fun sum item => sum + item.total) 0 = _
  rw [foldl_add_total, List.map_congr_left h, zero_add]

/-- C1, witness: the amended statement at a concrete bill. -/
theorem C1_recompute_witness :
    (billingPreSave 0 c1WitBill).subtotal =
        (c1WitBill.items.map fun item => item.quantity * item.unitPrice).sum ∧
    (billingPreSave 0 c1WitBill).totalAmount =
        (billingPreSave 0 c1WitBill).subtotal + c1WitBill.tax - c1WitBill.discount ∧
    (billingPreSave 0 c1WitBill).balance =
        (billingPreSave 0 c1WitBill).totalAmount - c1WitBill.paidAmount :=
  C1_recompute_amended 0 c1WitBill (by decide)

/-- C2, counterexample: an unpaid bill with a future due date and a stored
status other than pending keeps that status — the claimed final rule
"otherwise the status is pending" does not exist in the source. -/
theorem C2_counterexample :
    (billingPreSave 0 c2CexBill).status = BillStatus.overdue ∧
    (billingPreSave 0 c2CexBill).status ≠ BillStatus.pending := by
  decide

/-- C2, amended: the status cascade fires in the claimed priority order
(balance ≤ 0 gives paid, then paidAmount > 0 gives partial, then a past
due date gives overdue), but the final branch keeps the stored status
unchanged instead of forcing pending. -/
theorem C2_status_cascade (now : Nat) (b : Bill) :
    (billingPreSave now b).status =
      if (billingPreSave now b).balance ≤ 0 then BillStatus.paid
      else if b.paidAmount > 0 then BillStatus.partPaid
      else if now > b.dueDate then BillStatus.overdue
      else b.status := rfl

/-- C3, counterexample: a cancelled bill whose paid amount covers its total
is rewritten to paid by the pre-save recompute — cancellation is not a
terminal override in the source. -/
theorem C3_counterexample :
    c3CexBill.status = BillStatus.cancelled ∧
    (billingPreSave 0 c3CexBill).status = BillStatus.paid ∧
    (billingPreSave 0 c3CexBill).status ≠ BillStatus.cancelled := by
  decide

/-- C3, amended: a cancelled bill keeps status cancelled only when no
cascade rule fires: recomputed balance positive, no payment recorded, and
the due date not in the past. -/
theorem C3_cancelled_conditional (now : Nat) (b : Bill)
    (hs : b.status = BillStatus.cancelled)
    (hbal : 0 < (billingPreSave now b).balance)
    (hpaid : b.paidAmount ≤ 0)
    (hdue : now ≤ b.dueDate) :
    (billingPreSave now b).status = BillStatus.cancelled := by
  rw [billingPreSave_status, if_neg (by omega), if_neg (by omega), if_neg (by omega)]
  exact hs

/-- C3, witness: the amended statement at a concrete cancelled bill. -/
theorem C3_cancelled_witness :
    (billingPreSave 0 c3WitBill).status = BillStatus.cancelled :=
  C3_cancelled_conditional 0 c3WitBill (by decide) (by decide) (by decide) (by decide)

/-- Appending an appointment the $nin conflict query found no match for
keeps the non-terminal slot keys pairwise distinct. -/
theorem uniqueNonTerminal_append (store : List Appt) (a : Appt)
    (hu : uniqueNonTerminal store)
    (hc : conflictNin store a.doctorId a.date a.time = false) :
    uniqueNonTerminal (store ++ [a]) := by
  have hno : ∀ x ∈ store, ¬ (x.doctorId = a.doctorId ∧ x.date = a.date ∧ x.time = a.time ∧
      x.status ≠ ApptStatus.cancelled ∧ x.status ≠ ApptStatus.completed) := by
    intro x hx hcontra
    have ht : conflictNin store a.doctorId a.date a.time = true := by
      simp only [conflictNin, List.any_eq_true, decide_eq_true_eq]
      exact ⟨x, hx, hcontra⟩
    rw [ht] at hc
    exact Bool.true_eq_false.mp hc
  unfold uniqueNonTerminal at hu ⊢
  rw [List.filter_append, List.pairwise_append]
  refine ⟨hu, ?_, ?_⟩
  · cases h : nonTerminal a <;> simp [List.filter, h]
  · intro x hx y hy
    obtain ⟨hxmem, hxnt⟩ := List.mem_filter.mp hx
    obtain ⟨hymem, hynt⟩ := List.mem_filter.mp hy
    have hya : y = a := by simpa using hymem
    subst hya
    intro hkey
    obtain ⟨hd, hdt, htm⟩ : x.doctorId = y.doctorId ∧ x.date = y.date ∧ x.time = y.time := by
      simpa [apptKey, Prod.ext_iff] using hkey
    have hxst : x.status ≠ ApptStatus.cancelled ∧ x.status ≠ ApptStatus.completed := by
      simpa [nonTerminal] using hxnt
    exact hno x hxmem ⟨hd, hdt, htm, hxst.1, hxst.2⟩

/-- C5, counterexample: two appointments created on distinct slots, then a
staff update moves the second onto the slot of the first; both stay
scheduled, so the store reaches a state where two non-terminal
appointments share one (doctorId, date, time) tuple. -/
theorem C5_counterexample :
    createStaffRoute true true [] c5A1 = StaffCreateResult.created [c5A1] ∧
    createStaffRoute true true [c5A1] c5A2 = StaffCreateResult.created [c5A1, c5A2] ∧
    updateApptRoute [c5A1, c5A2] 2 c5Update = some [c5A1, c5A2Moved] ∧
    nonTerminal c5A1 = true ∧ nonTerminal c5A2Moved = true ∧
    apptKey c5A1 = apptKey c5A2Moved ∧
    ¬ uniqueNonTerminal [c5A1, c5A2Moved] := by
  refine ⟨rfl, rfl, rfl, rfl, rfl, rfl, by decide⟩

/-- C5, amended: the two creation routes preserve the uniqueness invariant
through their pre-insert $nin conflict query, but the invariant is not
re-checked at update time and no database unique index exists, so it does
not hold in every reachable state. -/
theorem C5_creation_preserves_uniqueness :
    (∀ pe de store rest a, uniqueNonTerminal store →
        createStaffRoute pe de store a = StaffCreateResult.created rest →
        uniqueNonTerminal rest) ∧
    (∀ role uid doc store body fid rest appt, uniqueNonTerminal store →
        createPatientRoute role uid doc store body fid =
          PatientCreateResult.created rest appt →
        uniqueNonTerminal rest) := by
  constructor
  · intro pe de store rest a hu hs
    unfold createStaffRoute at hs
    split at hs
    · exact absurd hs (by simp)
    · split at hs
      · exact absurd hs (by simp)
      · split at hs
        · exact absurd hs (by simp)
        · rename_i hcon
          obtain rfl : store ++ [a] = rest := by
            simpa using hs
          exact uniqueNonTerminal_append store a hu (Bool.not_eq_true _ ▸ hcon)
  · intro role uid doc store body fid rest appt hu hs
    unfold createPatientRoute at hs
    split at hs
    · exact absurd hs (by simp)
    · split at hs
      · exact absurd hs (by simp)
      · cases doc with
        | none => exact absurd hs (by simp)
        | some d =>
          simp only at hs
          split at hs
          · exact absurd hs (by simp)
          · split at hs
            · exact absurd hs (by simp)
            · rename_i hcon
              obtain ⟨rfl, rfl⟩ :
                  store ++ [buildPatientAppointment uid fid body] = rest ∧
                    buildPatientAppointment uid fid body = appt := by
                simpa using hs
              exact uniqueNonTerminal_append store _ hu (Bool.not_eq_true _ ▸ hcon)

/-- C5, witness: creating into a store already satisfying the invariant
yields a store satisfying it. -/
theorem C5_creation_witness : uniqueNonTerminal [c5WitAppt] :=
  C5_creation_preserves_uniqueness.1 true true [] [c5WitAppt] c5WitAppt (by decide) rfl

/-- C4: creation derives consistent fields, but PUT /api/billing/:id goes
through findByIdAndUpdate, which skips the pre-save middleware: after
recording a payment of 110 on a bill with totalAmount 110, the stored
balance is still 110 instead of totalAmount − paidAmount = 0, and the
status is still pending. -/
theorem C4_put_skips_recompute :
    billingPostRoute 0 true c4Body = BillingPostResult.created c4Bill ∧
    c4Bill.totalAmount = 110 ∧ c4Bill.balance = 110 ∧ c4Bill.status = BillStatus.pending ∧
    billingPutRoute 1 { status := none, paidAmount := some 110 } (some c4Bill) =
      BillingPutResult.updated c4After ∧
    c4After.paidAmount = 110 ∧
    c4After.balance ≠ c4After.totalAmount - c4After.paidAmount ∧
    c4After.status ≠ BillStatus.paid := by
  decide

/-- C6: the availability check can never reach a success verdict — after
the doctor and past-date checks the weekday computation throws for every
date (the weekday option value "lowercase" is invalid), and the catch
block turns that into a 500 — shown on a concrete fully-bookable request:
active doctor, future Monday 10:00 inside working hours, empty store. -/
theorem C6_checkAvailability_never_succeeds :
    (∀ now doctor store doctorId date time,
        checkAvailabilityRoute now doctor store doctorId date time ≠ AvailVerdict.available) ∧
    checkAvailabilityRoute 0 (some c6Doctor) [] "d1" 4 600 = AvailVerdict.serverError := by
  refine ⟨?_, rfl⟩
  intro now doctor store doctorId date time
  unfold checkAvailabilityRoute
  cases doctor with
  | none => simp
  | some doc =>
    simp only [weekdayLowercaseOption]
    split
    · simp
    · split <;> simp

/-- C7, counterexample: the claimed blocking set (scheduled, confirmed,
in_progress) matches neither call site: a no_show appointment blocks the
creation routes although the claim says it must not, and an in_progress
appointment does not block the check-availability route although the
claim says it must. -/
theorem C7_counterexample :
    c7NoShow.status = ApptStatus.no_show ∧
    claimBlockingSet c7NoShow.status = false ∧
    conflictNin [c7NoShow] "d1" 4 540 = true ∧
    claimCheckConflict [c7NoShow] "d1" 4 540 = false ∧
    c7InProgress.status = ApptStatus.in_progress ∧
    claimBlockingSet c7InProgress.status = true ∧
    conflictIn [c7InProgress] "d1" 4 540 = false ∧
    claimCheckConflict [c7InProgress] "d1" 4 540 = true := by
  decide

/-- C7, amended: the creation routes block on an exact tuple match with any
status outside the cancelled and completed pair (so no_show and in_progress
block), the check-availability route blocks only on scheduled or confirmed,
and the behavioural consequence holds: re-booking a scheduled slot fails
with a conflict and succeeds once that appointment is cancelled. -/
theorem C7_conflict_semantics :
    (∀ store d dt t, conflictNin store d dt t = true ↔
        ∃ a ∈ store, a.doctorId = d ∧ a.date = dt ∧ a.time = t ∧
          a.status ≠ ApptStatus.cancelled ∧ a.status ≠ ApptStatus.completed) ∧
    (∀ store d dt t, conflictIn store d dt t = true ↔
        ∃ a ∈ store, a.doctorId = d ∧ a.date = dt ∧ a.time = t ∧
          (a.status = ApptStatus.scheduled ∨ a.status = ApptStatus.confirmed)) ∧
    createPatientRoute true "p2" (some c7Doctor) [c7Scheduled] c7Body 2 =
      PatientCreateResult.slotConflict ∧
    cancelApptRoute [c7Scheduled] 1 = CancelResult.done [c7Cancelled] ∧
    createPatientRoute true "p2" (some c7Doctor) [c7Cancelled] c7Body 2 =
      PatientCreateResult.created [c7Cancelled, c7Booked] c7Booked := by
  refine ⟨?_, ?_, rfl, rfl, rfl⟩
  · intro store d dt t
    simp [conflictNin, List.any_eq_true]
  · intro store d dt t
    simp [conflictIn, List.any_eq_true]

/-- One unfolding step of the slot loop. -/
theorem slotsLoop_eq (cur endMin : Nat) :
    slotsLoop cur endMin =
      if cur < endMin then cur :: slotsLoop (cur + 30) endMin else [] := by
  rw [slotsLoop]

/-- The slot loop yields exactly the 30-minute grid points of the half-open
window from its start up to, excluding, its end. -/
theorem mem_slotsLoop_iff (t s e : Nat) :
    t ∈ slotsLoop s e ↔ (∃ k, t = s + 30 * k) ∧ t < e := by
  induction s, e using slotsLoop.induct with
  | case1 s e h ih =>
    rw [slotsLoop_eq, if_pos h]
    constructor
    · intro hm
      rcases List.mem_cons.mp hm with rfl | hm
      · exact ⟨⟨0, by omega⟩, h⟩
      · obtain ⟨⟨k, rfl⟩, hlt⟩ := ih.mp hm
        exact ⟨⟨k + 1, by omega⟩, hlt⟩
    · rintro ⟨⟨k, rfl⟩, hlt⟩
      cases k with
      | zero => simp
      | succ k =>
        exact List.mem_cons.mpr (Or.inr (ih.mpr ⟨⟨k, by omega⟩, hlt⟩))
  | case2 s e h =>
    rw [slotsLoop_eq, if_neg h]
    simp only [List.not_mem_nil, false_iff, not_and]
    rintro ⟨k, rfl⟩ hlt
    omega

/-- C8: a slot is bookable iff the day entry exists, is available and the
time lies in the half-open window start ≤ time < end; the slot enumeration
is exactly the 30-minute grid of that window; and on the spec example
(monday 09:00 to 17:00, date 4 a Monday) it yields exactly 16 slots from
540 (09:00) to 990 (16:30), with 1020 (17:00) excluded and not bookable. -/
theorem C8_halfopen_window_and_grid :
    (∀ availability date time,
        isSlotBookable availability date time = true ↔
          ∃ day, List.lookup (weekdayLongLower date) availability = some day ∧
            day.available = true ∧ day.startMin ≤ time ∧ time < day.endMin) ∧
    (∀ s e t, t ∈ slotsLoop s e ↔ (∃ k, t = s + 30 * k) ∧ t < e) ∧
    getAvailableTimeSlots c8MondayAvail 4 =
      [540, 570, 600, 630, 660, 690, 720, 750, 780, 810, 840, 870, 900, 930, 960, 990] ∧
    (getAvailableTimeSlots c8MondayAvail 4).length = 16 ∧
    (getAvailableTimeSlots c8MondayAvail 4).head? = some 540 ∧
    (getAvailableTimeSlots c8MondayAvail 4).getLast? = some 990 ∧
    (1020 : Nat) ∉ getAvailableTimeSlots c8MondayAvail 4 ∧
    isSlotBookable c8MondayAvail 4 1020 = false := by
  have hslots : getAvailableTimeSlots c8MondayAvail 4 =
      [540, 570, 600, 630, 660, 690, 720, 750, 780, 810, 840, 870, 900, 930, 960, 990] := by
    simp [getAvailableTimeSlots, c8MondayAvail, weekdayLongLower, slotsLoop]
  refine ⟨?_, fun s e t => mem_slotsLoop_iff t s e, hslots, ?_, ?_, ?_, ?_, by decide⟩
  · intro avail date time
    unfold isSlotBookable
    cases h : List.lookup (weekdayLongLower date) avail with
    | none => simp
    | some day =>
      cases hav : day.available with
      | false => simp [hav]
      | true => simp [hav]
  · rw [hslots]; rfl
  · rw [hslots]; rfl
  · rw [hslots]; rfl
  · rw [hslots]; decide

/-- C9, counterexample: even on a fully well-formed input (availability
with the monday key present, date 4 a Monday) the server-side lookup
throws a RangeError — the weekday option value "lowercase" is invalid —
contradicting the claim that the lookup never throws. -/
theorem C9_counterexample :
    List.lookup "monday" c9Avail =
      some { startMin := 540, endMin := 1020, available := true } ∧
    weekdayLongLower 4 = "monday" ∧
    isDayAvailableServer c9Avail 4 =
      Except.error "RangeError: weekday value out of range" := by
  refine ⟨rfl, rfl, rfl⟩

/-- C9, amended: the client-side lookup maps the date to the en-US long
weekday name lowercased (extensionally the ISO weekday keyed into the
seven fixed names), returns the available flag of the entry found, and
returns false without throwing when the key is absent; the server-side
lookup instead throws a RangeError for every date. -/
theorem C9_day_lookup_amended :
    (∀ availability date,
        (∃ day, List.lookup (weekdayLongLower date) availability = some day ∧
            isDayAvailableClient availability date = day.available) ∨
        (List.lookup (weekdayLongLower date) availability = none ∧
            isDayAvailableClient availability date = false)) ∧
    (∀ availability date, isDayAvailableServer availability date =
        Except.error "RangeError: weekday value out of range") := by
  constructor
  · intro avail date
    cases h : List.lookup (weekdayLongLower date) avail with
    | none => exact Or.inr ⟨rfl, by simp [isDayAvailableClient, h]⟩
    | some day => exact Or.inl ⟨day, rfl, by simp [isDayAvailableClient, h]⟩
  · intro avail date
    rfl

/-- C10: the self-booking route builds the appointment with patientId
forced to the authenticated user and status forced to scheduled; two
request bodies that differ only in their patientId and status fields
produce the same appointment and the same route outcome. -/
theorem C10_forced_identity_and_status (role : Bool) (userId : String)
    (doctor : Option DoctorRec) (store : List Appt) (fid : Nat)
    (b1 b2 : PatientBookBody)
    (hsame : b1.doctorId = b2.doctorId ∧ b1.date = b2.date ∧ b1.time = b2.time ∧
      b1.reason = b2.reason) :
    (buildPatientAppointment userId fid b1).patientId = userId ∧
    (buildPatientAppointment userId fid b1).status = ApptStatus.scheduled ∧
    buildPatientAppointment userId fid b1 = buildPatientAppointment userId fid b2 ∧
    createPatientRoute role userId doctor store b1 fid =
      createPatientRoute role userId doctor store b2 fid := by
  obtain ⟨h1, h2, h3, h4⟩ := hsame
  refine ⟨rfl, rfl, ?_, ?_⟩
  · simp [buildPatientAppointment, h1, h2, h3]
  · simp only [createPatientRoute, buildPatientAppointment, h1, h2, h3, h4]

/-- C10, witness: a body carrying a rogue patientId and a rogue completed
status books the same appointment as the clean body. -/
theorem C10_forced_witness :
    (buildPatientAppointment "p9" 2 c10Body1).patientId = "p9" ∧
    (buildPatientAppointment "p9" 2 c10Body1).status = ApptStatus.scheduled ∧
    buildPatientAppointment "p9" 2 c10Body1 = buildPatientAppointment "p9" 2 c10Body2 ∧
    createPatientRoute true "p9" (some c10Doctor) [] c10Body1 2 =
      createPatientRoute true "p9" (some c10Doctor) [] c10Body2 2 :=
  C10_forced_identity_and_status true "p9" (some c10Doctor) [] 2 c10Body1 c10Body2
    (by refine ⟨rfl, rfl, rfl, rfl⟩)

end HospitalMgmt
